import Mathlib

/-!
Verification of the `cloudfront-policy-signer` crate (`src/lib.rs`) against its
natural-language specification.

The crate is a four-stage pipeline: build a canned-policy byte string, load and
parse an RSA private key, sign the policy with RSA-SHA1 via OpenSSL, and encode
the raw signature into a URL-safe base64 string.

Modelling conventions:
* A Rust `Vec<u8>` / `&[u8]` is a `List Nat` whose entries are byte values
  (`< 256`).  `String::into_bytes` is the UTF-8 encoding of the string, embedded
  here as `strBytes`.
* The OpenSSL primitives (`Rsa::private_key_from_pem`, `PKey::from_rsa`,
  `Signer::new`, `Signer::update`, `Signer::sign_to_vec`) and `fs::read` are
  external collaborators: they are modelled as oracle functions collected in the
  `OpenSSL` structure (plus a separate `fsRead` oracle), each returning
  `Except`, mirroring the Rust `Result`.  `Signer`'s in-place mutation by
  `update` is modelled by explicit state passing.
* `openssl::base64::encode_block` is standard base64 (RFC 4648 alphabet, `=`
  padding, no line breaks); it is embedded concretely as `encode_block` so the
  encoding-layer claims can be settled computationally.
* Rust's `str::replace` with a single-character pattern and single-character
  replacement replaces every occurrence of that character, i.e. it is a
  character map; it is embedded as `replaceChar`.
* The `error!` logging calls are side effects outside the value-level contract
  and are dropped by the embedding (the spec treats logging as best-effort).
-/

/-! ## UTF-8 byte model of Rust strings -/

/-- UTF-8 encoding of a single character, as byte values (model of the encoding
underlying Rust `String::into_bytes`). -/
def utf8Bytes (c : Char) : List Nat :=
  let n := c.toNat
  if n < 0x80 then [n]
  else if n < 0x800 then [0xC0 + n / 64, 0x80 + n % 64]
  else if n < 0x10000 then [0xE0 + n / 4096, 0x80 + n / 64 % 64, 0x80 + n % 64]
  else [0xF0 + n / 262144, 0x80 + n / 4096 % 64, 0x80 + n / 64 % 64, 0x80 + n % 64]

/-- Byte sequence of a string under UTF-8: the model of Rust
`String::into_bytes` / `str::as_bytes`. -/
def strBytes (s : String) : List Nat :=
  s.data.flatMap utf8Bytes

/-! ## 4.1 Policy Builder — `generate_canned_policy` -/

/-- String produced by the `format!` call in `generate_canned_policy`
(`src/lib.rs` line 57), with the two interpolation holes filled by `resource`
and the decimal rendering of `expiry`.  The brace placement reproduces the Rust
format string exactly: `\x7b\x7b`/`\x7d\x7d` in `format!` denote literal
braces. -/
def generate_canned_policy_str (resource : String) (expiry : Nat) : String :=
  "\x7b\"Statement\":[\x7b\"Resource\":\"" ++ resource ++
    "\x7d\",\"Condition\":\x7b\"DateLessThan\":\x7b\"AWS:EpochTime\":" ++
    toString expiry ++ "\x7d\x7d]\x7d"

/-- Embedding of `generate_canned_policy` (`src/lib.rs` lines 56–58): the
`format!` output converted to bytes by `into_bytes` (UTF-8). -/
def generate_canned_policy (resource : String) (expiry : Nat) : List Nat :=
  strBytes (generate_canned_policy_str resource expiry)

/-- Constant run of policy bytes preceding the resource in the template. -/
def policyPre : String :=
  "\x7b\"Statement\":[\x7b\"Resource\":\""

/-- Run of policy bytes following the resource in the template (depends only on
the expiry, not on the resource). -/
def policyPost (expiry : Nat) : String :=
  "\x7d\",\"Condition\":\x7b\"DateLessThan\":\x7b\"AWS:EpochTime\":" ++
    toString expiry ++ "\x7d\x7d]\x7d"

/-- Modelled from the spec: the §3 canned-policy template
`{"Statement":[{"Resource":"<resource>}","Condition":{"DateLessThan":{"AWS:EpochTime":<expiry>}}}]}`
transcribed byte for byte as the spec writes it, i.e. with three closing braces
between the expiry value and the closing square bracket.  Defined only for
comparison against `generate_canned_policy`. -/
def spec3Template (resource : String) (expiry : Nat) : String :=
  "\x7b\"Statement\":[\x7b\"Resource\":\"" ++ resource ++
    "\x7d\",\"Condition\":\x7b\"DateLessThan\":\x7b\"AWS:EpochTime\":" ++
    toString expiry ++ "\x7d\x7d\x7d]\x7d"

/-- Modelled from the spec: the template as instantiated in the spec's §8
policy byte-exactness property (two closing braces between the expiry value and
the closing square bracket), for refinement comparison. -/
def spec8Template (resource : String) (expiry : Nat) : String :=
  "\x7b\"Statement\":[\x7b\"Resource\":\"" ++ resource ++
    "\x7d\",\"Condition\":\x7b\"DateLessThan\":\x7b\"AWS:EpochTime\":" ++
    toString expiry ++ "\x7d\x7d]\x7d"

/-! ## 4.4 URL-Safe Encoder — `encode_signature_url_safe` -/

/-- Character of the standard base64 alphabet at index `n` (`A`–`Z`, `a`–`z`,
`0`–`9`, `+`, `/`), for `n < 64`. -/
def b64Char (n : Nat) : Char :=
  if n < 26 then Char.ofNat (65 + n)
  else if n < 52 then Char.ofNat (97 + (n - 26))
  else if n < 62 then Char.ofNat (48 + (n - 52))
  else if n = 62 then '+'
  else '/'

/-- Model of `openssl::base64::encode_block`: standard base64 with `=` padding
and no line breaks.  Bytes are consumed three at a time; a final group of one
or two bytes produces `==` or `=` padding. -/
def encode_block : List Nat → List Char
  | [] => []
  | [b1] => [b64Char (b1 / 4), b64Char (b1 % 4 * 16), '=', '=']
  | [b1, b2] =>
      [b64Char (b1 / 4), b64Char (b1 % 4 * 16 + b2 / 16), b64Char (b2 % 16 * 4), '=']
  | b1 :: b2 :: b3 :: rest =>
      b64Char (b1 / 4) :: b64Char (b1 % 4 * 16 + b2 / 16) ::
        b64Char (b2 % 16 * 4 + b3 / 64) :: b64Char (b3 % 64) :: encode_block rest

/-- Embedding of Rust `str::replace` specialised to a one-character pattern and
one-character replacement: every occurrence of `a` becomes `b`. -/
def replaceChar (a b : Char) (s : List Char) : List Char :=
  s.map fun c => if c = a then b else c

/-- Embedding of `encode_signature_url_safe` (`src/lib.rs` lines 135–140):
`encode_block` followed by `.replace("+", "-").replace("=", "_").replace("/", "~")`,
applied in the source's order (innermost first). -/
def encode_signature_url_safe (bytes : List Nat) : String :=
  String.mk (replaceChar '/' '~' (replaceChar '=' '_' (replaceChar '+' '-'
    (encode_block bytes))))

/-- Modelled from the spec: value of a standard-base64-alphabet character
(inverse of `b64Char`); non-alphabet characters map to 0.  Used only by the
decoding direction of the §8 round-trip property. -/
def b64Val (c : Char) : Nat :=
  if 65 ≤ c.toNat ∧ c.toNat ≤ 90 then c.toNat - 65
  else if 97 ≤ c.toNat ∧ c.toNat ≤ 122 then c.toNat - 97 + 26
  else if 48 ≤ c.toNat ∧ c.toNat ≤ 57 then c.toNat - 48 + 52
  else if c = '+' then 62
  else if c = '/' then 63
  else 0

/-- Modelled from the spec: standard base64 decoding (inverse of
`encode_block`), consuming four characters at a time and honouring `=`
padding in the final group. -/
def decode_block : List Char → List Nat
  | c1 :: c2 :: c3 :: c4 :: rest =>
      if c3 = '=' then [b64Val c1 * 4 + b64Val c2 / 16]
      else if c4 = '=' then
        [b64Val c1 * 4 + b64Val c2 / 16, b64Val c2 % 16 * 16 + b64Val c3 / 4]
      else
        (b64Val c1 * 4 + b64Val c2 / 16) :: (b64Val c2 % 16 * 16 + b64Val c3 / 4) ::
          (b64Val c3 % 4 * 64 + b64Val c4) :: decode_block rest
  | _ => []

/-- Modelled from the spec: the §8 round-trip decoder — reverse the three
character substitutions (`-`→`+`, `_`→`=`, `~`→`/`) and then standard
base64-decode. -/
def decode_url_safe (s : String) : List Nat :=
  decode_block (replaceChar '-' '+' (replaceChar '_' '=' (replaceChar '~' '/'
    s.data)))

/-! ## Error taxonomy and the key-loading / signing pipeline

The pipeline stages call external collaborators.  `fs::read` is modelled by an
oracle `fsRead : String → Except ι (List Nat)` where `ι` stands for
`std::io::Error` (opaque); the five OpenSSL entry points used by the crate are
collected in an `OpenSSL` structure over opaque types for
`openssl::error::ErrorStack`, `Rsa<Private>`, `PKey<Private>` and `Signer`.
Because the collaborators are functions, each invocation with equal arguments
returns equal results — the formal counterpart of the spec's assumption that
RSA-SHA1 signing is deterministic. -/

/-- Embedding of the crate's `Error` enum (`src/lib.rs` lines 36–48).  `ι`
models `std::io::Error`; only `IOError` carries a payload — the other variants
are nullary, exactly as in the source. -/
inductive Error (ι : Type) where
  | IOError (cause : ι)
  | PrivateKeyParseError
  | PrivateKeyConvertError
  | CouldNotSign
  | Unknown

/-- Embedding of `openssl::hash::MessageDigest` restricted to the one digest
the crate uses. -/
inductive MessageDigest where
  | sha1

/-- Oracle bundle for the OpenSSL primitives the crate calls.  `σ` models
`openssl::error::ErrorStack`, `ρ` models `Rsa<Private>`, `κ` models
`PKey<Private>`, `τ` models `Signer`.  `signer_update` returns the
post-update signer state (state-passing model of Rust's `&mut self`). -/
structure OpenSSL (σ ρ κ τ : Type) where
  private_key_from_pem : List Nat → Except σ ρ
  from_rsa : ρ → Except σ κ
  signer_new : MessageDigest → κ → Except σ τ
  signer_update : τ → List Nat → Except σ τ
  signer_sign_to_vec : τ → Except σ (List Nat)

/-- Embedding of `read_rsa_private_key` (`src/lib.rs` lines 71–77):
`fs::read(&file).map_err(|e| Error::IOError(e))` (the `error!` log is a
dropped side effect). -/
def read_rsa_private_key {ι : Type} (fsRead : String → Except ι (List Nat))
    (file : String) : Except (Error ι) (List Nat) :=
  (fsRead file).mapError fun e => Error.IOError e

/-- Embedding of `parse_rsa_private_key` (`src/lib.rs` lines 84–97):
`Rsa::private_key_from_pem(&key).map_err(.. PrivateKeyParseError)` chained by
`and_then` into `PKey::from_rsa(..).map_err(.. PrivateKeyConvertError)`. -/
def parse_rsa_private_key {ι σ ρ κ τ : Type} (ssl : OpenSSL σ ρ κ τ)
    (key : List Nat) : Except (Error ι) κ :=
  ((ssl.private_key_from_pem key).mapError fun _ =>
      Error.PrivateKeyParseError).bind fun private_key =>
    (ssl.from_rsa private_key).mapError fun _ => Error.PrivateKeyConvertError

/-- Embedding of `sign_canned_policy` (`src/lib.rs` lines 106–127):
`Signer::new(MessageDigest::sha1(), &private_key)` mapped to `Unknown`,
`and_then` `signer.update(&policy)` mapped to `Unknown`, `and_then`
`signer.sign_to_vec()` mapped to `CouldNotSign`. -/
def sign_canned_policy {ι σ ρ κ τ : Type} (ssl : OpenSSL σ ρ κ τ)
    (policy : List Nat) (private_key : κ) : Except (Error ι) (List Nat) :=
  ((ssl.signer_new MessageDigest.sha1 private_key).mapError fun _ =>
      Error.Unknown).bind fun signer =>
    ((ssl.signer_update signer policy).mapError fun _ =>
        (Error.Unknown : Error ι)).bind fun signer2 =>
      (ssl.signer_sign_to_vec signer2).mapError fun _ => Error.CouldNotSign

/-- Embedding of the public entry point `create_canned_policy_signature`
(`src/lib.rs` lines 169–177): read, then parse, then sign the canned policy,
then URL-safe-encode, chained with `and_then`. -/
def create_canned_policy_signature {ι σ ρ κ τ : Type} (ssl : OpenSSL σ ρ κ τ)
    (fsRead : String → Except ι (List Nat)) (resource : String) (expiry : Nat)
    (private_key_location : String) : Except (Error ι) String :=
  (read_rsa_private_key fsRead private_key_location).bind fun key =>
    (parse_rsa_private_key ssl key).bind fun private_key =>
      (sign_canned_policy ssl (generate_canned_policy resource expiry)
          private_key).bind fun signed_policy =>
        Except.ok (encode_signature_url_safe signed_policy)

/-- Concrete all-succeeding oracle bundle, used only to witness the pipeline
claims at a closed instance. -/
def oracle0 : OpenSSL Nat Nat Nat Nat :=
  ⟨fun _ => .ok 0, fun _ => .ok 0, fun _ _ => .ok 0, fun _ _ => .ok 0,
   fun _ => .ok [0]⟩

/-- Concrete byte-source oracle returning the same bytes for every name, used
only to witness the determinism claim. -/
def fsRead0 : String → Except Nat (List Nat) := fun _ => .ok [1]

/-- Composite of the three character substitutions applied by
`encode_signature_url_safe`, in the source's order: `+`→`-`, then `=`→`_`,
then `/`→`~`. -/
def urlSafeSub (c : Char) : Char :=
  let c1 := if c = '+' then '-' else c
  let c2 := if c1 = '=' then '_' else c1
  if c2 = '/' then '~' else c2

/-- Modelled from the spec: composite of the three reversed substitutions
applied by `decode_url_safe`: `~`→`/`, then `_`→`=`, then `-`→`+`. -/
def urlSafeUnsub (c : Char) : Char :=
  let c1 := if c = '~' then '/' else c
  let c2 := if c1 = '_' then '=' else c1
  if c2 = '-' then '+' else c2

/-- URL-unreserved characters relevant here: ASCII letters, digits, `-`, `_`
and `~`. -/
def urlUnreserved (c : Char) : Prop :=
  ('A' ≤ c ∧ c ≤ 'Z') ∨ ('a' ≤ c ∧ c ≤ 'z') ∨ ('0' ≤ c ∧ c ≤ '9') ∨
    c = '-' ∨ c = '_' ∨ c = '~'

instance (c : Char) : Decidable (urlUnreserved c) := by
  unfold urlUnreserved
  infer_instance

/-! ## Shared lemmas -/

/-- UTF-8 byte sequences concatenate along string concatenation. -/
theorem strBytes_append (a b : String) :
    strBytes (a ++ b) = strBytes a ++ strBytes b := by
  simp [strBytes]

/-! ## Claims about the Policy Builder -/

/-- C1: `generate_canned_policy` applied to the resource
`https://example.cloudfront.net/flowerpot.png` and expiry `1579532331` returns
exactly the literal byte sequence
`{"Statement":[{"Resource":"https://example.cloudfront.net/flowerpot.png}","Condition":{"DateLessThan":{"AWS:EpochTime":1579532331}}]}`
(UTF-8 bytes of the literal; all characters are ASCII), including the stray
quote character after the resource. -/
theorem c1_policy_byte_exact :
    generate_canned_policy "https://example.cloudfront.net/flowerpot.png"
        1579532331 =
      strBytes "\x7b\"Statement\":[\x7b\"Resource\":\"https://example.cloudfront.net/flowerpot.png\x7d\",\"Condition\":\x7b\"DateLessThan\":\x7b\"AWS:EpochTime\":1579532331\x7d\x7d]\x7d" := by
  decide

/-- C2 counterexample: at the spec's own §8 example input, the bytes returned
by `generate_canned_policy` are not the §3 template instantiation — the §3
template writes three closing braces between the expiry value and the closing
square bracket, while the code emits two. -/
theorem c2_counterexample :
    generate_canned_policy "https://example.cloudfront.net/flowerpot.png"
        1579532331 ≠
      strBytes (spec3Template "https://example.cloudfront.net/flowerpot.png"
        1579532331) := by
  decide

/-- C2 (amended): for every resource string and every unsigned 64-bit expiry,
`generate_canned_policy` returns exactly the bytes of the template
`{"Statement":[{"Resource":"<resource>}","Condition":{"DateLessThan":{"AWS:EpochTime":<expiry>}}]}`
with `<resource>` and `<expiry>` substituted in — i.e. with TWO closing braces
between the expiry value and the closing square bracket, as in the spec's §8
instantiation, not three as the §3 template writes.  The function is total, so
it never fails. -/
theorem c2_policy_template (resource : String) (expiry : Nat)
    (_h : expiry < 2 ^ 64) :
    generate_canned_policy resource expiry =
      strBytes (spec8Template resource expiry) := rfl

/-- C2 witness: the amended template equality at the §8 example input. -/
theorem c2_policy_template_witness :
    1579532331 < 2 ^ 64 ∧
      generate_canned_policy "https://example.cloudfront.net/flowerpot.png"
          1579532331 =
        strBytes (spec8Template "https://example.cloudfront.net/flowerpot.png"
          1579532331) :=
  ⟨by norm_num,
   c2_policy_template "https://example.cloudfront.net/flowerpot.png" 1579532331
     (by norm_num)⟩

/-- C9: for every resource string — including the empty string and strings
containing quotes, braces or other JSON-breaking characters — and every
expiry, the policy bytes are a fixed prefix, then the resource's bytes
verbatim, contiguously and unmodified, then a suffix depending only on the
expiry: no escaping and no validation is performed. -/
theorem c9_resource_verbatim (resource : String) (expiry : Nat) :
    generate_canned_policy resource expiry =
      strBytes policyPre ++ strBytes resource ++
        strBytes (policyPost expiry) := by
  simp [generate_canned_policy, generate_canned_policy_str, policyPre,
    policyPost, strBytes_append]

/-! ## Lemmas about the URL-Safe Encoder -/

/-- Mapping `f` and then `g` is the identity when `g` undoes `f` on every
element of the list. -/
theorem map_map_eq_self_of {α : Type} (l : List α) (f g : α → α)
    (h : ∀ a ∈ l, g (f a) = a) : (l.map f).map g = l := by
  induction l with
  | nil => rfl
  | cons x xs ih => simp_all

/-- Every character emitted by `encode_block` on genuine bytes is either a
standard-alphabet character `b64Char n` with `n < 64` or the padding
character. -/
theorem encode_block_mem (bs : List Nat) :
    (∀ b ∈ bs, b < 256) →
      ∀ c ∈ encode_block bs, (∃ n, n < 64 ∧ c = b64Char n) ∨ c = '=' := by
  induction bs using encode_block.induct with
  | case1 =>
    intro _ c hc
    simp [encode_block] at hc
  | case2 b1 =>
    intro hb c hc
    have h1 : b1 < 256 := hb b1 (by simp)
    simp [encode_block] at hc
    rcases hc with rfl | rfl | rfl
    · exact Or.inl ⟨b1 / 4, by omega, rfl⟩
    · exact Or.inl ⟨b1 % 4 * 16, by omega, rfl⟩
    · exact Or.inr rfl
  | case3 b1 b2 =>
    intro hb c hc
    have h1 : b1 < 256 := hb b1 (by simp)
    have h2 : b2 < 256 := hb b2 (by simp)
    simp [encode_block] at hc
    rcases hc with rfl | rfl | rfl | rfl
    · exact Or.inl ⟨b1 / 4, by omega, rfl⟩
    · exact Or.inl ⟨b1 % 4 * 16 + b2 / 16, by omega, rfl⟩
    · exact Or.inl ⟨b2 % 16 * 4, by omega, rfl⟩
    · exact Or.inr rfl
  | case4 b1 b2 b3 rest ih =>
    intro hb c hc
    have h1 : b1 < 256 := hb b1 (by simp)
    have h2 : b2 < 256 := hb b2 (by simp)
    have h3 : b3 < 256 := hb b3 (by simp)
    simp [encode_block] at hc
    rcases hc with rfl | rfl | rfl | rfl | hmem
    · exact Or.inl ⟨b1 / 4, by omega, rfl⟩
    · exact Or.inl ⟨b1 % 4 * 16 + b2 / 16, by omega, rfl⟩
    · exact Or.inl ⟨b2 % 16 * 4 + b3 / 64, by omega, rfl⟩
    · exact Or.inl ⟨b3 % 64, by omega, rfl⟩
    · exact ih (fun b hbm => hb b (by simp [hbm])) c hmem

/-- The characters of the URL-safe output are the `encode_block` output mapped
through the composite substitution. -/
theorem encode_url_safe_data (bs : List Nat) :
    (encode_signature_url_safe bs).data = (encode_block bs).map urlSafeSub := by
  simp only [encode_signature_url_safe, replaceChar, List.map_map]
  rfl

/-- Applying the reversed substitutions is the identity on the map through the
forward substitutions of characters. -/
theorem decode_url_safe_data (s : String) :
    decode_url_safe s = decode_block (s.data.map urlSafeUnsub) := by
  simp only [decode_url_safe, replaceChar, List.map_map]
  rfl

/-- Decoding inverts the base64 value of every alphabet index. -/
theorem b64Val_b64Char : ∀ n, n < 64 → b64Val (b64Char n) = n := by decide

/-- No alphabet character is the padding character. -/
theorem b64Char_ne_pad : ∀ n, n < 64 → b64Char n ≠ '=' := by decide

/-- The reversed substitutions undo the forward substitutions on every
alphabet character. -/
theorem unsub_sub_b64 : ∀ n, n < 64 →
    urlSafeUnsub (urlSafeSub (b64Char n)) = b64Char n := by decide

/-- The reversed substitutions undo the forward substitutions on the padding
character. -/
theorem unsub_sub_pad : urlSafeUnsub (urlSafeSub '=') = '=' := by decide

/-- Standard base64 decoding inverts `encode_block` on genuine byte
sequences. -/
theorem decode_encode_block (bs : List Nat) :
    (∀ b ∈ bs, b < 256) → decode_block (encode_block bs) = bs := by
  induction bs using encode_block.induct with
  | case1 =>
    intro _
    rfl
  | case2 b1 =>
    intro hb
    have h1 : b1 < 256 := hb b1 (by simp)
    have v1 : b64Val (b64Char (b1 / 4)) = b1 / 4 := b64Val_b64Char _ (by omega)
    have v2 : b64Val (b64Char (b1 % 4 * 16)) = b1 % 4 * 16 :=
      b64Val_b64Char _ (by omega)
    simp [encode_block, decode_block, v1, v2]
    omega
  | case3 b1 b2 =>
    intro hb
    have h1 : b1 < 256 := hb b1 (by simp)
    have h2 : b2 < 256 := hb b2 (by simp)
    have hne : b64Char (b2 % 16 * 4) ≠ '=' := b64Char_ne_pad _ (by omega)
    have v1 : b64Val (b64Char (b1 / 4)) = b1 / 4 := b64Val_b64Char _ (by omega)
    have v2 : b64Val (b64Char (b1 % 4 * 16 + b2 / 16)) = b1 % 4 * 16 + b2 / 16 :=
      b64Val_b64Char _ (by omega)
    have v3 : b64Val (b64Char (b2 % 16 * 4)) = b2 % 16 * 4 :=
      b64Val_b64Char _ (by omega)
    simp [encode_block, decode_block, hne, v1, v2, v3]
    constructor <;> omega
  | case4 b1 b2 b3 rest ih =>
    intro hb
    have h1 : b1 < 256 := hb b1 (by simp)
    have h2 : b2 < 256 := hb b2 (by simp)
    have h3 : b3 < 256 := hb b3 (by simp)
    have hne3 : b64Char (b2 % 16 * 4 + b3 / 64) ≠ '=' :=
      b64Char_ne_pad _ (by omega)
    have hne4 : b64Char (b3 % 64) ≠ '=' := b64Char_ne_pad _ (by omega)
    have v1 : b64Val (b64Char (b1 / 4)) = b1 / 4 := b64Val_b64Char _ (by omega)
    have v2 : b64Val (b64Char (b1 % 4 * 16 + b2 / 16)) = b1 % 4 * 16 + b2 / 16 :=
      b64Val_b64Char _ (by omega)
    have v3 : b64Val (b64Char (b2 % 16 * 4 + b3 / 64)) = b2 % 16 * 4 + b3 / 64 :=
      b64Val_b64Char _ (by omega)
    have v4 : b64Val (b64Char (b3 % 64)) = b3 % 64 := b64Val_b64Char _ (by omega)
    have hrest := ih (fun b hbm => hb b (by simp [hbm]))
    simp [encode_block, decode_block, hne3, hne4, v1, v2, v3, v4, hrest]
    refine ⟨by omega, by omega, by omega⟩

/-! ## Claims about the URL-Safe Encoder -/

/-- C3: `encode_signature_url_safe` is a total function (it never fails); the
empty input yields the empty string; and for every byte-valued input, no
character of the output is `+`, `=` or `/` — the three characters the source
substitutes away after standard base64 encoding. -/
theorem c3_encode_url_safe_alphabet :
    encode_signature_url_safe [] = "" ∧
      ∀ (bytes : List Nat), (∀ b ∈ bytes, b < 256) →
        ∀ c ∈ (encode_signature_url_safe bytes).data,
          c ≠ '+' ∧ c ≠ '=' ∧ c ≠ '/' := by
  refine ⟨rfl, ?_⟩
  intro bytes hb c hc
  rw [encode_url_safe_data] at hc
  obtain ⟨c0, hc0, rfl⟩ := List.mem_map.mp hc
  rcases encode_block_mem bytes hb c0 hc0 with ⟨n, hn, rfl⟩ | rfl
  · have key : ∀ m, m < 64 →
        urlSafeSub (b64Char m) ≠ '+' ∧ urlSafeSub (b64Char m) ≠ '=' ∧
          urlSafeSub (b64Char m) ≠ '/' := by decide
    exact key n hn
  · decide

/-- C3 witness: a concrete padded input whose output character `~` avoids the
three substituted characters. -/
theorem c3_encode_url_safe_alphabet_witness :
    (∀ b ∈ ([255, 255] : List Nat), b < 256) ∧
      '~' ∈ (encode_signature_url_safe [255, 255]).data ∧
      ('~' ≠ '+' ∧ '~' ≠ '=' ∧ '~' ≠ '/') :=
  ⟨by decide, by decide,
   c3_encode_url_safe_alphabet.2 [255, 255] (by decide) '~' (by decide)⟩

/-- C10: every character of the URL-safe output lies in the URL-unreserved set
`A`–`Z`, `a`–`z`, `0`–`9`, `-`, `_`, `~` — strictly stronger than the spec's
stated absence of `+`, `=` and `/`. -/
theorem c10_url_unreserved (bytes : List Nat) (hb : ∀ b ∈ bytes, b < 256) :
    ∀ c ∈ (encode_signature_url_safe bytes).data, urlUnreserved c := by
  intro c hc
  rw [encode_url_safe_data] at hc
  obtain ⟨c0, hc0, rfl⟩ := List.mem_map.mp hc
  rcases encode_block_mem bytes hb c0 hc0 with ⟨n, hn, rfl⟩ | rfl
  · have key : ∀ m, m < 64 → urlUnreserved (urlSafeSub (b64Char m)) := by
      decide
    exact key n hn
  · decide

/-- C10 witness: the unreserved-alphabet property at a concrete input and
output character. -/
theorem c10_url_unreserved_witness :
    (∀ b ∈ ([251] : List Nat), b < 256) ∧
      '-' ∈ (encode_signature_url_safe [251]).data ∧ urlUnreserved '-' :=
  ⟨by decide, by decide,
   c10_url_unreserved [251] (by decide) '-' (by decide)⟩

/-- C4: for every byte sequence of length at most 256, reversing the three
character substitutions on the URL-safe output and standard base64-decoding
reproduces the original bytes exactly. -/
theorem c4_round_trip (bytes : List Nat) (_hlen : bytes.length ≤ 256)
    (hb : ∀ b ∈ bytes, b < 256) :
    decode_url_safe (encode_signature_url_safe bytes) = bytes := by
  rw [decode_url_safe_data, encode_url_safe_data]
  have hfix : ∀ c ∈ encode_block bytes, urlSafeUnsub (urlSafeSub c) = c := by
    intro c hc
    rcases encode_block_mem bytes hb c hc with ⟨n, hn, rfl⟩ | rfl
    · exact unsub_sub_b64 n hn
    · exact unsub_sub_pad
  rw [map_map_eq_self_of _ _ _ hfix]
  exact decode_encode_block bytes hb

/-- C4 witness: the round trip at a concrete three-byte input. -/
theorem c4_round_trip_witness :
    ([62, 255, 63] : List Nat).length ≤ 256 ∧
      (∀ b ∈ ([62, 255, 63] : List Nat), b < 256) ∧
      decode_url_safe (encode_signature_url_safe [62, 255, 63]) =
        [62, 255, 63] :=
  ⟨by decide, by decide, c4_round_trip [62, 255, 63] (by decide) (by decide)⟩

/-! ## Claims about error handling and orchestration -/

/-- Unfolding of the orchestrator as a first-failure case analysis over the
six collaborator calls, shared by the orchestration and determinism claims. -/
theorem create_signature_unfold {ι σ ρ κ τ : Type} (ssl : OpenSSL σ ρ κ τ)
    (fsRead : String → Except ι (List Nat)) (resource : String) (expiry : Nat)
    (loc : String) :
    create_canned_policy_signature ssl fsRead resource expiry loc =
      match fsRead loc with
      | .error e => .error (Error.IOError e)
      | .ok key =>
        match ssl.private_key_from_pem key with
        | .error _ => .error Error.PrivateKeyParseError
        | .ok rsa =>
          match ssl.from_rsa rsa with
          | .error _ => .error Error.PrivateKeyConvertError
          | .ok pk =>
            match ssl.signer_new MessageDigest.sha1 pk with
            | .error _ => .error Error.Unknown
            | .ok signer =>
              match ssl.signer_update signer
                  (generate_canned_policy resource expiry) with
              | .error _ => .error Error.Unknown
              | .ok signer2 =>
                match ssl.signer_sign_to_vec signer2 with
                | .error _ => .error Error.CouldNotSign
                | .ok sig => .ok (encode_signature_url_safe sig) := by
  unfold create_canned_policy_signature read_rsa_private_key
    parse_rsa_private_key sign_canned_policy
  cases hfs : fsRead loc with
  | error e => simp [hfs, Except.mapError, Except.bind]
  | ok key =>
    cases hp : ssl.private_key_from_pem key with
    | error e => simp [hfs, hp, Except.mapError, Except.bind]
    | ok rsa =>
      cases hc : ssl.from_rsa rsa with
      | error e => simp [hfs, hp, hc, Except.mapError, Except.bind]
      | ok pk =>
        cases hn : ssl.signer_new MessageDigest.sha1 pk with
        | error e => simp [hfs, hp, hc, hn, Except.mapError, Except.bind]
        | ok signer =>
          cases hu : ssl.signer_update signer
              (generate_canned_policy resource expiry) with
          | error e => simp [hfs, hp, hc, hn, hu, Except.mapError, Except.bind]
          | ok signer2 =>
            cases hs : ssl.signer_sign_to_vec signer2 with
            | error e =>
              simp [hfs, hp, hc, hn, hu, hs, Except.mapError, Except.bind]
            | ok sig =>
              simp [hfs, hp, hc, hn, hu, hs, Except.mapError, Except.bind]

/-- C5: the orchestrator sequences read, parse (two sub-steps), sign (three
sub-steps over the policy built from the resource and expiry) and encode; it
short-circuits at the first failing collaborator call and returns that stage's
error kind unchanged; because the result type is a sum, a failing run carries
the error alone and never a string. -/
theorem c5_orchestration {ι σ ρ κ τ : Type} (ssl : OpenSSL σ ρ κ τ)
    (fsRead : String → Except ι (List Nat)) (resource : String) (expiry : Nat)
    (loc : String) :
    create_canned_policy_signature ssl fsRead resource expiry loc =
      match fsRead loc with
      | .error e => .error (Error.IOError e)
      | .ok key =>
        match ssl.private_key_from_pem key with
        | .error _ => .error Error.PrivateKeyParseError
        | .ok rsa =>
          match ssl.from_rsa rsa with
          | .error _ => .error Error.PrivateKeyConvertError
          | .ok pk =>
            match ssl.signer_new MessageDigest.sha1 pk with
            | .error _ => .error Error.Unknown
            | .ok signer =>
              match ssl.signer_update signer
                  (generate_canned_policy resource expiry) with
              | .error _ => .error Error.Unknown
              | .ok signer2 =>
                match ssl.signer_sign_to_vec signer2 with
                | .error _ => .error Error.CouldNotSign
                | .ok sig => .ok (encode_signature_url_safe sig) :=
  create_signature_unfold ssl fsRead resource expiry loc

/-- C6: in the key-loading stage, a failing byte-source read yields `IOError`
carrying the underlying cause value; bytes the library rejects as a
PEM/PKCS#1 RSA private key yield `PrivateKeyParseError`; a failing adaptation
of the parsed key into the generic signing representation yields
`PrivateKeyConvertError`.  The latter two error values are nullary
constructors, so only `IOError` preserves the original cause. -/
theorem c6_key_loading {ι σ ρ κ τ : Type} (ssl : OpenSSL σ ρ κ τ)
    (fsRead : String → Except ι (List Nat)) (file : String) (key : List Nat) :
    (read_rsa_private_key fsRead file =
      match fsRead file with
      | .error e => .error (Error.IOError e)
      | .ok bs => .ok bs) ∧
    (@parse_rsa_private_key ι σ ρ κ τ ssl key =
      match ssl.private_key_from_pem key with
      | .error _ => .error Error.PrivateKeyParseError
      | .ok rsa =>
        match ssl.from_rsa rsa with
        | .error _ => .error Error.PrivateKeyConvertError
        | .ok pk => .ok pk) := by
  constructor
  · unfold read_rsa_private_key
    cases hfs : fsRead file with
    | error e => rfl
    | ok bs => rfl
  · unfold parse_rsa_private_key
    cases hp : ssl.private_key_from_pem key with
    | error e => simp [hp, Except.mapError, Except.bind]
    | ok rsa =>
      cases hc : ssl.from_rsa rsa with
      | error e => simp [hp, hc, Except.mapError, Except.bind]
      | ok pk => simp [hp, hc, Except.mapError, Except.bind]

/-- C7: in the signing stage, a failing signer construction maps to `Unknown`,
a failing data feed maps to `Unknown`, and a failing finalization maps to
`CouldNotSign`; when all three succeed the raw, non-encoded signature bytes
are returned. -/
theorem c7_sign_stage {ι σ ρ κ τ : Type} (ssl : OpenSSL σ ρ κ τ)
    (policy : List Nat) (pk : κ) :
    @sign_canned_policy ι σ ρ κ τ ssl policy pk =
      match ssl.signer_new MessageDigest.sha1 pk with
      | .error _ => .error Error.Unknown
      | .ok signer =>
        match ssl.signer_update signer policy with
        | .error _ => .error Error.Unknown
        | .ok signer2 =>
          match ssl.signer_sign_to_vec signer2 with
          | .error _ => .error Error.CouldNotSign
          | .ok sig => .ok sig := by
  unfold sign_canned_policy
  cases hn : ssl.signer_new MessageDigest.sha1 pk with
  | error e => simp [hn, Except.mapError, Except.bind]
  | ok signer =>
    cases hu : ssl.signer_update signer policy with
    | error e => simp [hn, hu, Except.mapError, Except.bind]
    | ok signer2 =>
      cases hs : ssl.signer_sign_to_vec signer2 with
      | error e => simp [hn, hu, hs, Except.mapError, Except.bind]
      | ok sig => simp [hn, hu, hs, Except.mapError, Except.bind]

/-- C8: two invocations of the orchestrator with the same resource, the same
expiry, the same collaborator bundle, and read stages that return the same
key bytes produce identical results — in particular two successful runs
return the identical signature string.  In this model the collaborators are
functions, so equal stage inputs give equal stage outputs; this is the formal
counterpart of RSA-SHA1 signing being deterministic. -/
theorem c8_determinism {ι σ ρ κ τ : Type} (ssl : OpenSSL σ ρ κ τ)
    (fsRead1 fsRead2 : String → Except ι (List Nat)) (loc1 loc2 : String)
    (resource : String) (expiry : Nat) (h : fsRead1 loc1 = fsRead2 loc2) :
    create_canned_policy_signature ssl fsRead1 resource expiry loc1 =
      create_canned_policy_signature ssl fsRead2 resource expiry loc2 := by
  rw [create_signature_unfold, create_signature_unfold, h]

/-- C8 witness: determinism at a concrete oracle bundle, byte source and two
locations. -/
theorem c8_determinism_witness :
    fsRead0 "a" = fsRead0 "b" ∧
      create_canned_policy_signature oracle0 fsRead0 "r" 0 "a" =
        create_canned_policy_signature oracle0 fsRead0 "r" 0 "b" :=
  ⟨rfl, c8_determinism oracle0 fsRead0 fsRead0 "a" "b" "r" 0 rfl⟩
